import Mathlib

/-! The imaging-core JNI bridge (`imaging_jni.cpp`).

The translation unit exports two JNI entry points:

* `Java_com_advancedcamera_imaging_NativeImaging_version`, which builds the
  `std::string` "imaging-core 0.1 (stubs)" and returns
  `env->NewStringUTF(v.c_str())`;
* `Java_com_advancedcamera_imaging_NativeImaging_processHdr`, whose body is empty.

The two entry points are embedded as state-passing functions over a `JNIEnv`
value.  `JNIEnv`, `jobject`, `jstring` and `NewStringUTF` are declared by
`<jni.h>`, which is not part of the repository; they are modelled here after
the JNI specification (a `NewStringUTF` call decodes a NUL-terminated modified
UTF-8 buffer and either allocates a `java.lang.String` or returns `NULL` with
an `OutOfMemoryError` pending).

A second layer, over a `Process`, adds the C++ side of a call: the construction
of the `std::string`, whose 24 characters do not fit the in-object buffer, takes
its storage from `operator new` and can throw `std::bad_alloc`.
-/

namespace ImagingJni

/-! ## Bytes and code units -/

/-- UTF-8 bytes of one character, as a C++ compiler stores it in a narrow
string literal (execution character set UTF-8). -/
def utf8Bytes (c : Char) : List Nat :=
  let n := c.toNat
  if n < 0x80 then [n]
  else if n < 0x800 then [0xC0 + n / 64, 0x80 + n % 64]
  else if n < 0x10000 then [0xE0 + n / 4096, 0x80 + (n / 64) % 64, 0x80 + n % 64]
  else [0xF0 + n / 262144, 0x80 + (n / 4096) % 64, 0x80 + (n / 64) % 64, 0x80 + n % 64]

/-- The bytes held by a `std::string` initialised from a string literal. -/
def stdString (literal : String) : List Nat :=
  literal.toList.flatMap utf8Bytes

/-- The buffer `std::string::c_str()` points to: the bytes of the string
followed by the terminating NUL. -/
def c_str (s : List Nat) : List Nat :=
  s ++ [0]

/-- What a reader of a C string sees: the bytes before the first NUL. -/
def readCString (buf : List Nat) : List Nat :=
  buf.takeWhile (fun b => b != 0)

/-- UTF-16 code units of one character; a `java.lang.String` is a sequence of
such units. -/
def utf16Units (c : Char) : List Nat :=
  let n := c.toNat
  if n < 0x10000 then [n]
  else [0xD800 + (n - 0x10000) / 1024, 0xDC00 + (n - 0x10000) % 1024]

/-- The `java.lang.String` content (UTF-16 code units) that spells a literal. -/
def javaString (literal : String) : List Nat :=
  literal.toList.flatMap utf16Units

/-- A continuation byte `10xxxxxx` of a multi-byte sequence. -/
def isContinuation (b : Nat) : Bool :=
  0x80 ≤ b && b ≤ 0xBF

/-- Decoder of JNI modified UTF-8 into UTF-16 code units: one byte
`0x01..0x7F`, two bytes `110xxxxx 10xxxxxx` (this form also spells U+0000 as
`C0 80`), or three bytes `1110xxxx 10xxxxxx 10xxxxxx`; supplementary
characters arrive as two three-byte surrogates.  Anything else is malformed. -/
def decodeMUTF8 : List Nat → Option (List Nat)
  | [] => some []
  | b0 :: rest =>
    if 0x01 ≤ b0 ∧ b0 ≤ 0x7F then
      (decodeMUTF8 rest).map (fun units => b0 :: units)
    else if 0xC0 ≤ b0 ∧ b0 ≤ 0xDF then
      match rest with
      | b1 :: rest1 =>
        if isContinuation b1 then
          (decodeMUTF8 rest1).map (fun units => ((b0 % 32) * 64 + b1 % 64) :: units)
        else none
      | [] => none
    else if 0xE0 ≤ b0 ∧ b0 ≤ 0xEF then
      match rest with
      | b1 :: b2 :: rest2 =>
        if isContinuation b1 && isContinuation b2 then
          (decodeMUTF8 rest2).map
            (fun units => ((b0 % 16) * 4096 + (b1 % 64) * 64 + b2 % 64) :: units)
        else none
      | _ => none
    else none

/-! ## The JNI environment -/

/-- A JNI reference: `NULL`, a `java.lang.String` of the heap (by its index),
or some other object, such as the `NativeImaging` receiver of a call. -/
inductive jobject where
  | null : jobject
  | string (index : Nat) : jobject
  | object (id : Nat) : jobject
  deriving DecidableEq, Repr

/-- In `<jni.h>` a `jstring` is a `jobject`. -/
abbrev jstring := jobject

/-- Exceptions a JNI call can leave pending. -/
inductive Throwable where
  | OutOfMemoryError : Throwable
  | other (className : String) : Throwable
  deriving DecidableEq, Repr

/-- State reachable through a `JNIEnv*`: the `java.lang.String` objects of
the heap (`jobject.string k` designates `strings[k]`), the heap space left
(counted in UTF-16 code units), and the pending exception, if any. -/
structure JNIEnv where
  strings : List (List Nat)
  freeUnits : Nat
  pending : Option Throwable
  deriving DecidableEq, Repr

/-- Content of the string a reference designates; `none` for `NULL` and for a
reference that designates no string. -/
def JNIEnv.stringContent (env : JNIEnv) : jstring → Option (List Nat)
  | jobject.null => none
  | jobject.string k => env.strings.get? k
  | jobject.object _ => none

/-- JNI `NewStringUTF`: reads the NUL-terminated modified UTF-8 buffer `utf`;
when the heap has room the new `java.lang.String` is allocated and a reference
to it returned; when it has not, the result is `NULL` and an
`OutOfMemoryError` is pending.  A buffer that is not modified UTF-8 gives
`NULL` ("the string cannot be constructed"). -/
def JNIEnv.NewStringUTF (env : JNIEnv) (utf : List Nat) : jstring × JNIEnv :=
  match decodeMUTF8 (readCString utf) with
  | none => (jobject.null, env)
  | some units =>
    if units.length ≤ env.freeUnits then
      (jobject.string env.strings.length,
        { env with strings := env.strings ++ [units],
                   freeUnits := env.freeUnits - units.length })
    else
      (jobject.null, { env with pending := some Throwable.OutOfMemoryError })

/-! ## The two entry points -/

/-- Source:
`jstring Java_com_advancedcamera_imaging_NativeImaging_version(JNIEnv* env, jobject)`
with body `std::string v = "imaging-core 0.1 (stubs)"; return env->NewStringUTF(v.c_str());`.
This is the JNI side of the call, for a run in which `v` has been constructed;
`Java_com_advancedcamera_imaging_NativeImaging_version_cxx` adds the C++ side. -/
def Java_com_advancedcamera_imaging_NativeImaging_version
    (env : JNIEnv) (_this : jobject) : jstring × JNIEnv :=
  let v := stdString "imaging-core 0.1 (stubs)"
  env.NewStringUTF (c_str v)

/-- Source:
`void Java_com_advancedcamera_imaging_NativeImaging_processHdr(JNIEnv* env, jobject)`
with an empty body (a comment only). -/
def Java_com_advancedcamera_imaging_NativeImaging_processHdr
    (env : JNIEnv) (_this : jobject) : Unit × JNIEnv :=
  ((), env)

/-! ## The managed caller -/

/-- Content of the string a call of `version` hands back to its caller, read
in the environment the call leaves behind; `none` when the call returned
`NULL`. -/
def versionString (env : JNIEnv) (this : jobject) : Option (List Nat) :=
  let r := Java_com_advancedcamera_imaging_NativeImaging_version env this
  r.2.stringContent r.1

/-- One invocation made by the managed caller (`NativeImaging.version()` or
`NativeImaging.processHdr()`), with its receiver. -/
inductive Call where
  | version (this : jobject) : Call
  | processHdr (this : jobject) : Call
  deriving DecidableEq, Repr

/-- Tells the `version` invocations apart from the `processHdr` ones. -/
def Call.isVersion : Call → Bool
  | Call.version _ => true
  | Call.processHdr _ => false

/-- Runs a sequence of invocations one after the other on the same
environment.  The result lists, in order, what each `version` invocation
returned (string content, `none` for `NULL`), next to the final environment. -/
def runCalls : JNIEnv → List Call → List (Option (List Nat)) × JNIEnv
  | env, [] => ([], env)
  | env, Call.version this :: calls =>
    let r := Java_com_advancedcamera_imaging_NativeImaging_version env this
    let out := runCalls r.2 calls
    (r.2.stringContent r.1 :: out.1, out.2)
  | env, Call.processHdr this :: calls =>
    runCalls (Java_com_advancedcamera_imaging_NativeImaging_processHdr env this).2 calls

/-- A receiver for the example calls: some `NativeImaging` instance. -/
def receiver : jobject :=
  jobject.object 1

/-- An environment with an empty heap and room for a hundred code units. -/
def roomyEnv : JNIEnv :=
  { strings := [], freeUnits := 100, pending := none }

/-- An environment whose heap is exhausted; no exception is pending. -/
def exhaustedEnv : JNIEnv :=
  { strings := [], freeUnits := 0, pending := none }

/-- An environment with room for exactly one 24-unit string. -/
def tightEnv : JNIEnv :=
  { strings := [], freeUnits := 24, pending := none }

/-! ## The C++ side of a call -/

/-- C++ exceptions the entry points can let escape. -/
inductive CxxException where
  | bad_alloc : CxxException
  deriving DecidableEq, Repr

/-- How the body of a C++ function ends: it returns a value, or an exception
propagates out of it. -/
inductive Outcome (α : Type) where
  | returned (value : α) : Outcome α
  | threw (e : CxxException) : Outcome α
  deriving DecidableEq, Repr

/-- State of the process a native call runs in: the bytes the C++ allocator
(`operator new`) can still hand out, and the state behind `JNIEnv*`. -/
structure Process where
  nativeFree : Nat
  env : JNIEnv
  deriving DecidableEq, Repr

/-- Longest string a `std::string` keeps inside the object itself, without a
heap buffer: 22 characters in libc++, the standard library of the Android NDK
(15 in libstdc++). -/
def ssoCapacity : Nat :=
  22

/-- Construction `std::string v = literal`.  A string that fits the in-object
buffer needs no allocation; a longer one obtains a heap buffer for its
characters and the terminating NUL from `operator new`, which throws
`std::bad_alloc` when the allocator cannot supply it.  The result is the content
of the string and the bytes taken from the allocator. -/
def constructStdString (nativeFree : Nat) (literal : String) : Outcome (List Nat × Nat) :=
  let bytes := stdString literal
  if bytes.length ≤ ssoCapacity then Outcome.returned (bytes, 0)
  else if bytes.length + 1 ≤ nativeFree then Outcome.returned (bytes, bytes.length + 1)
  else Outcome.threw CxxException.bad_alloc

/-- The whole body of
`Java_com_advancedcamera_imaging_NativeImaging_version`, C++ runtime included:
`std::string v = "imaging-core 0.1 (stubs)";` may throw, and the exception then
leaves the function before `NewStringUTF` is called; otherwise the function
returns `env->NewStringUTF(v.c_str())`, and the destructor of `v` gives the
buffer back, so the allocator ends with the bytes it started with. -/
def Java_com_advancedcamera_imaging_NativeImaging_version_cxx
    (p : Process) (_this : jobject) : Outcome jstring × Process :=
  match constructStdString p.nativeFree "imaging-core 0.1 (stubs)" with
  | Outcome.threw e => (Outcome.threw e, p)
  | Outcome.returned (v, _taken) =>
    let r := p.env.NewStringUTF (c_str v)
    (Outcome.returned r.1, { p with env := r.2 })

/-- The whole body of
`Java_com_advancedcamera_imaging_NativeImaging_processHdr`, C++ runtime
included: the body is empty, nothing is allocated and nothing can throw. -/
def Java_com_advancedcamera_imaging_NativeImaging_processHdr_cxx
    (p : Process) (_this : jobject) : Outcome Unit × Process :=
  (Outcome.returned (), p)

/-- Runs a sequence of invocations one after the other in the same process.
The result lists, in order, how each `version` invocation ended: the content of
the returned string (`none` for `NULL`), or the exception that escaped.  An
exception that escapes a native function cannot be handled by the managed
caller, so the run ends with that invocation. -/
def runNativeCalls : Process → List Call → List (Outcome (Option (List Nat))) × Process
  | p, [] => ([], p)
  | p, Call.version this :: calls =>
    match Java_com_advancedcamera_imaging_NativeImaging_version_cxx p this with
    | (Outcome.threw e, p1) => ([Outcome.threw e], p1)
    | (Outcome.returned r, p1) =>
      let out := runNativeCalls p1 calls
      (Outcome.returned (p1.env.stringContent r) :: out.1, out.2)
  | p, Call.processHdr this :: calls =>
    match Java_com_advancedcamera_imaging_NativeImaging_processHdr_cxx p this with
    | (Outcome.threw e, p1) => ([Outcome.threw e], p1)
    | (Outcome.returned _, p1) => runNativeCalls p1 calls

/-- Number of `version` invocations in a sequence. -/
def versionCalls (calls : List Call) : Nat :=
  (calls.filter Call.isVersion).length

/-- Number of 24-unit strings a heap with `freeUnits` units can still take,
out of `k` requested. -/
def allocated (k freeUnits : Nat) : Nat :=
  min k (freeUnits / 24)

/-- A process with plenty of native memory and a roomy Java heap. -/
def roomyProcess : Process :=
  { nativeFree := 4096, env := roomyEnv }

/-- A process with plenty of native memory whose Java heap is exhausted. -/
def exhaustedHeapProcess : Process :=
  { nativeFree := 4096, env := exhaustedEnv }

/-- A process with plenty of native memory and Java heap for one string. -/
def tightProcess : Process :=
  { nativeFree := 4096, env := tightEnv }

/-- A process whose C++ allocator has nothing left; the Java heap is roomy. -/
def noNativeMemoryProcess : Process :=
  { nativeFree := 0, env := roomyEnv }

/-! ## Helper lemmas -/

theorem literal_decodes :
    decodeMUTF8 (readCString (c_str (stdString "imaging-core 0.1 (stubs)")))
      = some (javaString "imaging-core 0.1 (stubs)") := by
  decide

theorem literal_units_length : (javaString "imaging-core 0.1 (stubs)").length = 24 := by
  decide

/-- Closed form of `version`: it depends on the environment only through the
room left in the heap. -/
theorem version_closed_form (env : JNIEnv) (this : jobject) :
    Java_com_advancedcamera_imaging_NativeImaging_version env this =
      if 24 ≤ env.freeUnits then
        (jobject.string env.strings.length,
          { env with strings := env.strings ++ [javaString "imaging-core 0.1 (stubs)"],
                     freeUnits := env.freeUnits - 24 })
      else
        (jobject.null, { env with pending := some Throwable.OutOfMemoryError }) := by
  unfold Java_com_advancedcamera_imaging_NativeImaging_version JNIEnv.NewStringUTF
  simp only [literal_decodes, literal_units_length]

theorem versionString_closed_form (env : JNIEnv) (this : jobject) :
    versionString env this =
      if 24 ≤ env.freeUnits then some (javaString "imaging-core 0.1 (stubs)") else none := by
  unfold versionString
  rw [version_closed_form]
  by_cases h : 24 ≤ env.freeUnits
  · simp [h, JNIEnv.stringContent]
  · simp [h, JNIEnv.stringContent]

theorem literal_bytes_length : (stdString "imaging-core 0.1 (stubs)").length = 24 := by
  decide

/-- The C++ side adds one outcome to `version`: when the allocator cannot
supply the 25-byte buffer of `v` the constructor throws; otherwise the call is
the JNI call. -/
theorem version_cxx_split (p : Process) (this : jobject) :
    Java_com_advancedcamera_imaging_NativeImaging_version_cxx p this =
      if p.nativeFree < 25 then (Outcome.threw CxxException.bad_alloc, p)
      else
        (Outcome.returned (Java_com_advancedcamera_imaging_NativeImaging_version p.env this).1,
          { p with env := (Java_com_advancedcamera_imaging_NativeImaging_version p.env this).2 }) := by
  unfold Java_com_advancedcamera_imaging_NativeImaging_version_cxx constructStdString
  simp only [literal_bytes_length, ssoCapacity]
  by_cases h : p.nativeFree < 25
  · have h2 : ¬ (24 + 1 ≤ p.nativeFree) := by omega
    simp [h, h2]
  · have h2 : 24 + 1 ≤ p.nativeFree := by omega
    simp [h, h2, Java_com_advancedcamera_imaging_NativeImaging_version]

/-- Closed form of a run at the JNI level: of the `k` strings requested the
first `allocated k freeUnits` are allocated, the later requests fail. -/
theorem runCalls_closed_form (calls : List Call) (env : JNIEnv) :
    runCalls env calls =
      (List.replicate (allocated (versionCalls calls) env.freeUnits)
            (some (javaString "imaging-core 0.1 (stubs)"))
          ++ List.replicate (versionCalls calls - allocated (versionCalls calls) env.freeUnits)
            none,
        { strings := env.strings
            ++ List.replicate (allocated (versionCalls calls) env.freeUnits)
              (javaString "imaging-core 0.1 (stubs)"),
          freeUnits := env.freeUnits - 24 * allocated (versionCalls calls) env.freeUnits,
          pending :=
            if allocated (versionCalls calls) env.freeUnits < versionCalls calls
            then some Throwable.OutOfMemoryError else env.pending }) := by
  induction calls generalizing env with
  | nil => simp [runCalls, versionCalls, allocated]
  | cons c cs ih =>
    cases c with
    | processHdr this =>
      have hk : versionCalls (Call.processHdr this :: cs) = versionCalls cs := by
        simp [versionCalls, List.filter, Call.isVersion]
      rw [hk]
      simp only [runCalls, Java_com_advancedcamera_imaging_NativeImaging_processHdr]
      exact ih env
    | version this =>
      have hk : versionCalls (Call.version this :: cs) = versionCalls cs + 1 := by
        simp [versionCalls, List.filter, Call.isVersion]
      rw [hk]
      simp only [runCalls]
      rw [ih, version_closed_form]
      by_cases hroom : 24 ≤ env.freeUnits
      · have hm : allocated (versionCalls cs + 1) env.freeUnits
            = allocated (versionCalls cs) (env.freeUnits - 24) + 1 := by
          unfold allocated
          have : env.freeUnits / 24 = (env.freeUnits - 24) / 24 + 1 := by omega
          omega
        simp only [hroom, if_true, hm, JNIEnv.stringContent]
        refine Prod.ext ?_ ?_
        · simp [List.replicate_succ]
        · simp only [List.replicate_succ, List.append_assoc, List.singleton_append,
            Nat.add_lt_add_iff_right]
          congr 1
          omega
      · have hm : allocated (versionCalls cs + 1) env.freeUnits = 0 := by
          unfold allocated
          have : env.freeUnits / 24 = 0 := by omega
          omega
        have hm0 : allocated (versionCalls cs) env.freeUnits = 0 := by
          unfold allocated
          have : env.freeUnits / 24 = 0 := by omega
          omega
        simp only [hroom, if_false, hm, hm0, JNIEnv.stringContent]
        refine Prod.ext ?_ ?_
        · simp [List.replicate_succ]
        · by_cases hc : 0 < versionCalls cs <;> simp [hc]

/-- With native memory for the buffer of `v`, a run in the process is the run
at the JNI level. -/
theorem runNativeCalls_with_memory (calls : List Call) (p : Process)
    (hmem : 25 ≤ p.nativeFree) :
    runNativeCalls p calls =
      ((runCalls p.env calls).1.map Outcome.returned,
        { p with env := (runCalls p.env calls).2 }) := by
  induction calls generalizing p with
  | nil => simp [runNativeCalls, runCalls]
  | cons c cs ih =>
    cases c with
    | processHdr this =>
      simp only [runNativeCalls, runCalls,
        Java_com_advancedcamera_imaging_NativeImaging_processHdr_cxx,
        Java_com_advancedcamera_imaging_NativeImaging_processHdr]
      exact ih p hmem
    | version this =>
      have hlt : ¬ p.nativeFree < 25 := by omega
      simp only [runNativeCalls, runCalls, version_cxx_split, hlt, if_false]
      rw [ih { p with env := (Java_com_advancedcamera_imaging_NativeImaging_version p.env this).2 }
        hmem]
      simp

/-- Without native memory for the buffer of `v`, a run ends at its first
`version` invocation, with the state it started from. -/
theorem runNativeCalls_without_memory (calls : List Call) (p : Process)
    (hmem : p.nativeFree < 25) :
    runNativeCalls p calls =
      (if versionCalls calls = 0 then [] else [Outcome.threw CxxException.bad_alloc], p) := by
  induction calls with
  | nil => simp [runNativeCalls, versionCalls]
  | cons c cs ih =>
    cases c with
    | processHdr this =>
      have hk : versionCalls (Call.processHdr this :: cs) = versionCalls cs := by
        simp [versionCalls, List.filter, Call.isVersion]
      rw [hk]
      simp only [runNativeCalls, Java_com_advancedcamera_imaging_NativeImaging_processHdr_cxx]
      exact ih
    | version this =>
      have hk : versionCalls (Call.version this :: cs) = versionCalls cs + 1 := by
        simp [versionCalls, List.filter, Call.isVersion]
      rw [hk]
      simp [runNativeCalls, version_cxx_split, hmem]

/-- Closed form of a run in the process. -/
theorem runNativeCalls_closed_form (calls : List Call) (p : Process) :
    runNativeCalls p calls =
      if p.nativeFree < 25 then
        (if versionCalls calls = 0 then [] else [Outcome.threw CxxException.bad_alloc], p)
      else
        (List.replicate (allocated (versionCalls calls) p.env.freeUnits)
              (Outcome.returned (some (javaString "imaging-core 0.1 (stubs)")))
            ++ List.replicate
              (versionCalls calls - allocated (versionCalls calls) p.env.freeUnits)
              (Outcome.returned none),
          { p with env :=
            { strings := p.env.strings
                ++ List.replicate (allocated (versionCalls calls) p.env.freeUnits)
                  (javaString "imaging-core 0.1 (stubs)"),
              freeUnits :=
                p.env.freeUnits - 24 * allocated (versionCalls calls) p.env.freeUnits,
              pending :=
                if allocated (versionCalls calls) p.env.freeUnits < versionCalls calls
                then some Throwable.OutOfMemoryError else p.env.pending } }) := by
  by_cases hmem : p.nativeFree < 25
  · rw [runNativeCalls_without_memory calls p hmem]
    simp [hmem]
  · rw [runNativeCalls_with_memory calls p (by omega), runCalls_closed_form]
    simp [hmem]

theorem versionCalls_filter_isVersion (calls : List Call) :
    versionCalls (calls.filter Call.isVersion) = versionCalls calls := by
  simp [versionCalls, List.filter_filter]

theorem versionCalls_filter_processHdr (calls : List Call) :
    versionCalls (calls.filter (fun c => !c.isVersion)) = 0 := by
  simp [versionCalls, List.filter_filter]

/-! ## C1: the returned content -/

/-- C1, as stated, fails: on an exhausted heap `version` returns `NULL`, not a
string whose content is "imaging-core 0.1 (stubs)". -/
theorem version_null_on_exhausted_heap :
    (Java_com_advancedcamera_imaging_NativeImaging_version exhaustedEnv receiver).1
        = jobject.null ∧
      versionString exhaustedEnv receiver ≠ some (javaString "imaging-core 0.1 (stubs)") := by
  decide

/-- C1 (amended): for every JNI environment whose heap has room for the string
(24 UTF-16 code units, so that the allocation made by `NewStringUTF` succeeds)
and every receiver object, `version` returns a non-null reference to a string
whose content is exactly "imaging-core 0.1 (stubs)". -/
theorem version_returns_build_constant (env : JNIEnv) (this : jobject)
    (hroom : 24 ≤ env.freeUnits) :
    (Java_com_advancedcamera_imaging_NativeImaging_version env this).1 ≠ jobject.null ∧
      (Java_com_advancedcamera_imaging_NativeImaging_version env this).2.stringContent
          (Java_com_advancedcamera_imaging_NativeImaging_version env this).1
        = some (javaString "imaging-core 0.1 (stubs)") ∧
      String.mk ((javaString "imaging-core 0.1 (stubs)").map Char.ofNat)
        = "imaging-core 0.1 (stubs)" := by
  refine ⟨?_, ?_, by decide⟩
  · rw [version_closed_form]
    simp [hroom]
  · have h := versionString_closed_form env this
    unfold versionString at h
    rw [h]
    simp [hroom]

/-- Witness of C1 (amended): the call on `roomyEnv` returns the first string of
the heap, whose content is the build constant. -/
theorem version_returns_build_constant_witness :
    24 ≤ roomyEnv.freeUnits ∧
      (Java_com_advancedcamera_imaging_NativeImaging_version roomyEnv receiver).1
        = jobject.string 0 ∧
      (Java_com_advancedcamera_imaging_NativeImaging_version roomyEnv receiver).2.stringContent
          (Java_com_advancedcamera_imaging_NativeImaging_version roomyEnv receiver).1
        = some (javaString "imaging-core 0.1 (stubs)") :=
  ⟨by decide, by decide,
    (version_returns_build_constant roomyEnv receiver (by decide)).2.1⟩

/-! ## C2: failure modes -/

/-- C2, as stated, fails: when the allocation made by `NewStringUTF` fails,
`version` returns `NULL` and leaves an `OutOfMemoryError` pending that was not
pending before the call; and when the allocator cannot supply the buffer of
`v`, `std::bad_alloc` leaves the function and nothing is returned. -/
theorem version_fails_when_allocation_fails :
    exhaustedEnv.pending = none ∧
      Java_com_advancedcamera_imaging_NativeImaging_version exhaustedEnv receiver
        = (jobject.null,
            { strings := [], freeUnits := 0, pending := some Throwable.OutOfMemoryError }) ∧
      Java_com_advancedcamera_imaging_NativeImaging_version_cxx exhaustedHeapProcess receiver
        = (Outcome.returned jobject.null,
            { nativeFree := 4096,
              env := { strings := [], freeUnits := 0,
                       pending := some Throwable.OutOfMemoryError } }) ∧
      Java_com_advancedcamera_imaging_NativeImaging_version_cxx noNativeMemoryProcess receiver
        = (Outcome.threw CxxException.bad_alloc, noNativeMemoryProcess) := by
  decide

/-- C2 (amended): `version` has two failure modes and one way to succeed.  For
every process state and receiver: when the allocator cannot supply the 25-byte
buffer of `v`, `std::bad_alloc` leaves the function, `NewStringUTF` is not called
and the state is untouched; otherwise, when the Java heap has room for the
24-unit string, `version` returns a reference to a new string, the last of the
heap, whose content is the build constant, and the pending-exception slot and
the strings already there are left as they were; otherwise it returns `NULL`
and leaves an `OutOfMemoryError` pending, the heap being left as it was. -/
theorem version_failure_modes (p : Process) (this : jobject) :
    Java_com_advancedcamera_imaging_NativeImaging_version_cxx p this =
        (if p.nativeFree < 25 then (Outcome.threw CxxException.bad_alloc, p)
        else if 24 ≤ p.env.freeUnits then
          (Outcome.returned (jobject.string p.env.strings.length),
            { p with env :=
              { strings := p.env.strings ++ [javaString "imaging-core 0.1 (stubs)"],
                freeUnits := p.env.freeUnits - 24,
                pending := p.env.pending } })
        else
          (Outcome.returned jobject.null,
            { p with env := { p.env with pending := some Throwable.OutOfMemoryError } })) ∧
      JNIEnv.stringContent
          { strings := p.env.strings ++ [javaString "imaging-core 0.1 (stubs)"],
            freeUnits := p.env.freeUnits - 24,
            pending := p.env.pending }
          (jobject.string p.env.strings.length)
        = some (javaString "imaging-core 0.1 (stubs)") := by
  refine ⟨?_, ?_⟩
  · rw [version_cxx_split, version_closed_form]
    by_cases hmem : p.nativeFree < 25
    · simp [hmem]
    · by_cases hroom : 24 ≤ p.env.freeUnits
      · simp [hmem, hroom]
      · simp [hmem, hroom]
  · simp [JNIEnv.stringContent]

/-! ## C3: `processHdr` -/

/-- C3: for every JNI environment state and every receiver object,
`processHdr` returns normally (the function is total and its result is the
unit value) and leaves the whole state as it was: the pending-exception slot,
the heap and the free space are those of the state before the call. -/
theorem processHdr_leaves_state (env : JNIEnv) (this : jobject) :
    Java_com_advancedcamera_imaging_NativeImaging_processHdr env this = ((), env) ∧
      (Java_com_advancedcamera_imaging_NativeImaging_processHdr env this).2.pending
        = env.pending ∧
      (Java_com_advancedcamera_imaging_NativeImaging_processHdr env this).2.strings
        = env.strings ∧
      (Java_com_advancedcamera_imaging_NativeImaging_processHdr env this).2.freeUnits
        = env.freeUnits :=
  ⟨rfl, rfl, rfl, rfl⟩

/-! ## C4: determinism -/

/-- C4, as stated, fails: two calls of `version` made in two environment
states can return different results, the string in one and `NULL` in the
other. -/
theorem version_results_differ :
    versionString roomyEnv receiver = some (javaString "imaging-core 0.1 (stubs)") ∧
      versionString exhaustedEnv receiver = none ∧
      versionString roomyEnv receiver ≠ versionString exhaustedEnv receiver := by
  decide

/-- C4 (amended): for any two calls of `version`, made with any two
environment states whose heaps have room for the string and any two receiver
objects, the returned strings are equal to each other and to the build
constant, and that string has length greater than zero. -/
theorem version_deterministic (env₁ env₂ : JNIEnv) (this₁ this₂ : jobject)
    (hroom₁ : 24 ≤ env₁.freeUnits) (hroom₂ : 24 ≤ env₂.freeUnits) :
    ∃ s, versionString env₁ this₁ = some s ∧ versionString env₂ this₂ = some s ∧
      s = javaString "imaging-core 0.1 (stubs)" ∧ 0 < s.length := by
  refine ⟨javaString "imaging-core 0.1 (stubs)", ?_, ?_, rfl, by decide⟩
  · rw [versionString_closed_form]; simp [hroom₁]
  · rw [versionString_closed_form]; simp [hroom₂]

/-- Witness of C4 (amended): a call on `roomyEnv` and a call on `tightEnv`,
with different receivers, return the same non-empty string. -/
theorem version_deterministic_witness :
    24 ≤ roomyEnv.freeUnits ∧ 24 ≤ tightEnv.freeUnits ∧
      ∃ s, versionString roomyEnv receiver = some s ∧
        versionString tightEnv jobject.null = some s ∧
        s = javaString "imaging-core 0.1 (stubs)" ∧ 0 < s.length :=
  ⟨by decide, by decide,
    version_deterministic roomyEnv tightEnv receiver jobject.null (by decide) (by decide)⟩

/-! ## C5: sequences of calls -/

/-- C5, as stated, fails.  The state after a sequence differs from the state
before it already for one successful `version` call (the heap holds a new
string and has less room), and for one failed call (an `OutOfMemoryError` is
now pending).  With room for one string only, the first `version` call returns
the string and the second one `NULL`; with no native memory the first
`version` call returns nothing and ends the run. -/
theorem calls_change_state :
    (runNativeCalls roomyProcess [Call.version receiver]).2 ≠ roomyProcess ∧
      (runNativeCalls roomyProcess [Call.version receiver]).2.env
        = { strings := [javaString "imaging-core 0.1 (stubs)"], freeUnits := 76,
            pending := none } ∧
      (runNativeCalls exhaustedHeapProcess [Call.version receiver]).2 ≠ exhaustedHeapProcess ∧
      (runNativeCalls exhaustedHeapProcess [Call.version receiver]).2.env.pending
        = some Throwable.OutOfMemoryError ∧
      (runNativeCalls tightProcess
          [Call.version receiver, Call.processHdr receiver, Call.version receiver]).1
        = [Outcome.returned (some (javaString "imaging-core 0.1 (stubs)")),
            Outcome.returned none] ∧
      runNativeCalls noNativeMemoryProcess
          [Call.processHdr receiver, Call.version receiver, Call.version receiver]
        = ([Outcome.threw CxxException.bad_alloc], noNativeMemoryProcess) := by
  decide

/-- C5 (amended): for every finite sequence of calls to `version` and
`processHdr`, in any order and with any repetition, and every process state.
The `processHdr` calls contribute nothing: results and final state are those of
the sequence with the `processHdr` calls removed, and a sequence of `processHdr`
calls alone ends in the state it started from.  With `k` calls of `version` and
native memory for the buffer of `v`, the first `m` of them return the same
string, the build constant, and the other `k - m` return `NULL`, where `m` is
the number of 24-unit strings the Java heap still takes, at most `k`; `m = k`,
every `version` call returning the same string whatever its position, exactly
when the heap has room for `k` strings.  The state after the sequence is the
state before it with those `m` strings appended to the heap, the room reduced by
`24 * m`, and an `OutOfMemoryError` pending when `m < k`; nothing else changes.
Without native memory for the buffer, the first `version` call ends the run with
`std::bad_alloc` and the state is the one before the sequence. -/
theorem calls_sequence_effect (calls : List Call) (p : Process) :
    runNativeCalls p calls = runNativeCalls p (calls.filter Call.isVersion) ∧
      runNativeCalls p (calls.filter (fun c => !c.isVersion)) = ([], p) ∧
      runNativeCalls p calls =
        (if p.nativeFree < 25 then
          (if versionCalls calls = 0 then [] else [Outcome.threw CxxException.bad_alloc], p)
        else
          (List.replicate (allocated (versionCalls calls) p.env.freeUnits)
                (Outcome.returned (some (javaString "imaging-core 0.1 (stubs)")))
              ++ List.replicate
                (versionCalls calls - allocated (versionCalls calls) p.env.freeUnits)
                (Outcome.returned none),
            { p with env :=
              { strings := p.env.strings
                  ++ List.replicate (allocated (versionCalls calls) p.env.freeUnits)
                    (javaString "imaging-core 0.1 (stubs)"),
                freeUnits :=
                  p.env.freeUnits - 24 * allocated (versionCalls calls) p.env.freeUnits,
                pending :=
                  if allocated (versionCalls calls) p.env.freeUnits < versionCalls calls
                  then some Throwable.OutOfMemoryError else p.env.pending } })) ∧
      (allocated (versionCalls calls) p.env.freeUnits = versionCalls calls
        ↔ 24 * versionCalls calls ≤ p.env.freeUnits) := by
  refine ⟨?_, ?_, runNativeCalls_closed_form calls p, ?_⟩
  · rw [runNativeCalls_closed_form calls p,
      runNativeCalls_closed_form (calls.filter Call.isVersion) p,
      versionCalls_filter_isVersion]
  · rw [runNativeCalls_closed_form, versionCalls_filter_processHdr]
    by_cases hmem : p.nativeFree < 25
    · simp [hmem]
    · simp [hmem, allocated]
  · unfold allocated
    constructor
    · intro h
      have h1 : versionCalls calls ≤ p.env.freeUnits / 24 := by omega
      have h2 := Nat.mul_le_mul_left 24 h1
      have h3 := Nat.mul_div_le p.env.freeUnits 24
      omega
    · intro h
      have h1 : versionCalls calls ≤ p.env.freeUnits / 24 := by
        rw [Nat.le_div_iff_mul_le (by decide)]
        omega
      omega

/-! ## C6: the bytes handed to `NewStringUTF` -/

/-- C6: the buffer `version` passes to `NewStringUTF` is the NUL-terminated
`std::string`; before the NUL it holds exactly 24 bytes, each in `0x01..0x7F`
(indeed printable ASCII, `0x20..0x7E`), and decoding them as JNI modified UTF-8
yields a 24-unit string equal, character for character, to the source literal
"imaging-core 0.1 (stubs)". -/
theorem version_utf_argument :
    (∀ (env : JNIEnv) (this : jobject),
        Java_com_advancedcamera_imaging_NativeImaging_version env this
          = env.NewStringUTF (c_str (stdString "imaging-core 0.1 (stubs)"))) ∧
      readCString (c_str (stdString "imaging-core 0.1 (stubs)"))
        = stdString "imaging-core 0.1 (stubs)" ∧
      (readCString (c_str (stdString "imaging-core 0.1 (stubs)"))).length = 24 ∧
      (∀ b ∈ readCString (c_str (stdString "imaging-core 0.1 (stubs)")),
        0x01 ≤ b ∧ b ≤ 0x7F) ∧
      (∀ b ∈ readCString (c_str (stdString "imaging-core 0.1 (stubs)")),
        0x20 ≤ b ∧ b ≤ 0x7E) ∧
      decodeMUTF8 (readCString (c_str (stdString "imaging-core 0.1 (stubs)")))
        = some (javaString "imaging-core 0.1 (stubs)") ∧
      (javaString "imaging-core 0.1 (stubs)").length = 24 ∧
      (javaString "imaging-core 0.1 (stubs)").map Char.ofNat
        = "imaging-core 0.1 (stubs)".toList := by
  refine ⟨fun _ _ => rfl, ?_, ?_, ?_, ?_, ?_, ?_, ?_⟩ <;> decide



end ImagingJni
